import Mathlib

/-!
Verification development for the AEON simulation core.

Shallow embedding of the relevant parts of `code/simulation_engine.py`
and `code/modules/maintenance.py`.  Python floats are modelled as `ℚ`
(all arithmetic in the embedded code is exact on the inputs considered),
dictionaries as insertion-ordered association lists, and JSON values as
an inductive type.  Wall-clock readings (`time.time()` based values such
as `SimulationClock.get_current_day()`) are passed in explicitly as a
`now : ℚ` argument, since the embedding is of the state transformation a
call performs at a given clock reading.  Randomness (`random.random()`,
`random.choice`, `random.uniform`) is modelled by passing the drawn
values explicitly in a `Draws` record; `random.choice l` is modelled as
an arbitrary element of `l`, selected by an arbitrary natural index
taken modulo the list length.
-/

/-- Event kinds of the municipal simulation (`EventType` enum). -/
inductive EventType where
  | infrastructure_failure
  | public_complaint
  | emergency_call
  | environmental_alert
  | budget_issue
  | civic_event
  | policy_proposal
  | service_outage
deriving DecidableEq

/-- The string payload of each `EventType` enum member. -/
def EventType.value : EventType → String
  | .infrastructure_failure => "infrastructure_failure"
  | .public_complaint => "public_complaint"
  | .emergency_call => "emergency_call"
  | .environmental_alert => "environmental_alert"
  | .budget_issue => "budget_issue"
  | .civic_event => "civic_event"
  | .policy_proposal => "policy_proposal"
  | .service_outage => "service_outage"

/-- Severity levels for events (`EventSeverity` enum, ordinals 1-4). -/
inductive EventSeverity where
  | low
  | medium
  | high
  | critical
deriving DecidableEq

/-- The numeric payload of each `EventSeverity` enum member. -/
def EventSeverity.value : EventSeverity → ℚ
  | .low => 1
  | .medium => 2
  | .high => 3
  | .critical => 4

/-- JSON values, used to model the dictionaries built by the engine for
serialization (`to_dict`, `save_state`). -/
inductive JsonVal where
  | num (q : ℚ)
  | str (s : String)
  | bool (b : Bool)
  | null
  | arr (xs : List JsonVal)
  | obj (fields : List (String × JsonVal))

/-- The `SimulationEvent` dataclass. -/
structure SimulationEvent where
  event_type : EventType
  severity : EventSeverity
  timestamp : ℚ
  description : String
  affected_systems : List String := []
  requires_human_intervention : Bool := false
  resolved : Bool := false
  resolution_time : Option ℚ := none
  consequences : List (String × JsonVal) := []

/-- The `SimulationEvent.to_dict` serialization method: the dictionary
literal it builds, keys in source order. -/
def SimulationEvent.to_dict (e : SimulationEvent) : List (String × JsonVal) :=
  [("event_type", .str e.event_type.value),
   ("severity", .num e.severity.value),
   ("timestamp", .num e.timestamp),
   ("description", .str e.description),
   ("affected_systems", .arr (e.affected_systems.map .str)),
   ("requires_human_intervention", .bool e.requires_human_intervention),
   ("resolved", .bool e.resolved),
   ("resolution_time", match e.resolution_time with
     | none => .null
     | some t => .num t),
   ("consequences", .obj e.consequences)]

/-- The mutable fields of `SimulationClock` (the wall-clock field
`start_time` is not modelled; clock readings enter as parameters). -/
structure SimulationClock where
  time_scale : ℚ
  day_duration : ℚ
  current_day : ℚ := 0
  paused : Bool := false
  pause_time : ℚ := 0

/-- The `SimulationClock.__init__` constructor: stores `time_scale` as
given (no clamping) and converts the day duration from hours to
seconds. -/
def SimulationClock.init (time_scale : ℚ) (day_duration_hours : ℚ) : SimulationClock :=
  { time_scale := time_scale, day_duration := day_duration_hours * 3600 }

/-- The `SimulationClock.set_time_scale` method:
`max(0.1, min(scale, 100.0))`. -/
def SimulationClock.set_time_scale (scale : ℚ) (c : SimulationClock) : SimulationClock :=
  { c with time_scale := max (1/10) (min scale 100) }

/-- The `SimulationEngine.resolve_event` method as a transformation of
the event it mutates; `now` is the value `self.clock.get_current_day()`
returns at the call. -/
def SimulationEngine.resolve_event (now : ℚ) (e : SimulationEvent) : SimulationEvent :=
  { e with resolved := true, resolution_time := some now }

/-- The JSON object written by `SimulationEngine.save_state`: `now` is
the value `self.clock.get_current_day()` returns at the call, `events`
is `self.events`, and `time_scale` is `self.clock.time_scale`. -/
def SimulationEngine.save_state (now : ℚ) (events : List SimulationEvent)
    (time_scale : ℚ) : List (String × JsonVal) :=
  [("current_day", .num now),
   ("events", .arr (events.map (fun e => .obj e.to_dict))),
   ("time_scale", .num time_scale)]

/-- Model of `random.choice(l)`: an arbitrary element of `l`, selected
by an arbitrary index reduced modulo the length; `dflt` is only reached
on an empty list, which never occurs in the embedded calls. -/
def random_choice (dflt : α) (l : List α) (i : Nat) : α :=
  l.getD (i % l.length) dflt

/-- The random draws consumed by one `EventGenerator.check_for_events`
pass: one fire/no-fire outcome per event kind (the result of the
`random.random() < p` comparison), one choice index per `random.choice`
call, and the `round(random.uniform(5, 15), 1)` value for the budget
event. -/
structure Draws where
  fire_infrastructure : Bool
  infra_component : Nat
  infra_severity : Nat
  fire_complaint : Bool
  complaint_topic : Nat
  fire_emergency : Bool
  emergency_kind : Nat
  emergency_severity : Nat
  fire_environmental : Bool
  environmental_kind : Nat
  fire_budget : Bool
  budget_deficit : ℚ
  fire_civic : Bool
  civic_kind : Nat
  fire_policy : Bool

namespace EventGenerator

/-- The `EventGenerator._generate_infrastructure_failure` method. -/
def generate_infrastructure_failure (day : ℚ) (d : Draws) : SimulationEvent :=
  let components := ["roads", "bridges", "public_buildings", "street_lighting",
    "sewers", "water_pipes", "power_grid"]
  let affected := random_choice "roads" components d.infra_component
  let severity := random_choice EventSeverity.low
    [EventSeverity.low, EventSeverity.medium, EventSeverity.high] d.infra_severity
  { event_type := .infrastructure_failure
    severity := severity
    timestamp := day
    description := "Infrastructure failure: " ++ affected
    affected_systems := [affected]
    requires_human_intervention :=
      severity == EventSeverity.medium || severity == EventSeverity.high
    consequences := [("repair_time_hours", .num (severity.value * 4)),
                     ("budget_cost", .num (severity.value * 1000))] }

/-- The `EventGenerator._generate_public_complaint` method. -/
def generate_public_complaint (day : ℚ) (d : Draws) : SimulationEvent :=
  let topics := ["noise", "traffic", "waste_collection", "public_transport",
    "street_lights"]
  let topic := random_choice "noise" topics d.complaint_topic
  { event_type := .public_complaint
    severity := .low
    timestamp := day
    description := "Public complaint about " ++ topic
    affected_systems := [topic]
    requires_human_intervention := false
    consequences := [("satisfaction_impact", .num (-2))] }

/-- The `EventGenerator._generate_emergency_call` method. -/
def generate_emergency_call (day : ℚ) (d : Draws) : SimulationEvent :=
  let emergencies := ["fire", "accident", "medical", "flooding"]
  let e := random_choice "fire" emergencies d.emergency_kind
  let severity := random_choice EventSeverity.medium
    [EventSeverity.medium, EventSeverity.high] d.emergency_severity
  { event_type := .emergency_call
    severity := severity
    timestamp := day
    description := "Emergency call: " ++ e
    affected_systems := ["public_safety"]
    requires_human_intervention := true
    consequences := [("response_time_min", .num (10 / severity.value))] }

/-- The `EventGenerator._generate_environmental_alert` method. -/
def generate_environmental_alert (day : ℚ) (d : Draws) : SimulationEvent :=
  let alerts := ["air_quality", "heatwave", "heavy_rain", "windstorm"]
  let a := random_choice "air_quality" alerts d.environmental_kind
  { event_type := .environmental_alert
    severity := .medium
    timestamp := day
    description := "Environmental alert: " ++ a
    affected_systems := ["environment"]
    requires_human_intervention := false
    consequences := [("preparedness_actions", .bool true)] }

/-- The `EventGenerator._generate_budget_issue` method. -/
def generate_budget_issue (day : ℚ) (d : Draws) : SimulationEvent :=
  { event_type := .budget_issue
    severity := .medium
    timestamp := day
    description := "Budget shortfall detected"
    affected_systems := ["finance"]
    requires_human_intervention := true
    consequences := [("deficit_percent", .num d.budget_deficit)] }

/-- The `EventGenerator._generate_civic_event` method. -/
def generate_civic_event (day : ℚ) (d : Draws) : SimulationEvent :=
  let events := ["community_festival", "public_meeting", "cleanup_day", "workshop"]
  let e := random_choice "community_festival" events d.civic_kind
  { event_type := .civic_event
    severity := .low
    timestamp := day
    description := "Civic event: " ++ e
    affected_systems := ["community"]
    requires_human_intervention := false
    consequences := [("engagement_boost", .num 5)] }

/-- The `EventGenerator._generate_policy_proposal` method. -/
def generate_policy_proposal (day : ℚ) (_d : Draws) : SimulationEvent :=
  { event_type := .policy_proposal
    severity := .low
    timestamp := day
    description := "New policy proposal submitted"
    affected_systems := ["governance"]
    requires_human_intervention := false
    consequences := [] }

/-- The `EventGenerator.check_for_events` method: returns the generated
event list and the new `last_check_day`.  `current_day` is the caller
supplied day, `last_check_day` is `self.last_check_day`, and `d` holds
the random draws of this pass. -/
def check_for_events (current_day : ℚ) (last_check_day : ℚ) (d : Draws) :
    List SimulationEvent × ℚ :=
  if current_day - last_check_day < 1/10 then ([], last_check_day)
  else
    ((if d.fire_infrastructure then [generate_infrastructure_failure current_day d] else []) ++
     (if d.fire_complaint then [generate_public_complaint current_day d] else []) ++
     (if d.fire_emergency then [generate_emergency_call current_day d] else []) ++
     (if d.fire_environmental then [generate_environmental_alert current_day d] else []) ++
     (if d.fire_budget then [generate_budget_issue current_day d] else []) ++
     (if d.fire_civic then [generate_civic_event current_day d] else []) ++
     (if d.fire_policy then [generate_policy_proposal current_day d] else []),
     current_day)

end EventGenerator

/-- Status levels for colony systems (`SystemStatus` enum). -/
inductive SystemStatus where
  | optimal
  | good
  | degraded
  | critical
  | failed
deriving DecidableEq

/-- The `SystemComponent` dataclass, with its field defaults. -/
structure SystemComponent where
  name : String
  health : ℚ := 100
  status : SystemStatus := .optimal
  last_maintenance : ℚ := 0
  degradation_rate : ℚ := 1/10
  failure_threshold : ℚ := 30
  maintenance_cost : ℚ := 100
  critical : Bool := false
deriving DecidableEq

instance : Inhabited SystemComponent := ⟨{ name := "" }⟩

/-- The status table of `SystemComponent._update_status` as a function
of health and failure threshold. -/
def statusOf (health : ℚ) (failure_threshold : ℚ) : SystemStatus :=
  if health ≥ 90 then .optimal
  else if health ≥ 70 then .good
  else if health ≥ 50 then .degraded
  else if health ≥ failure_threshold then .critical
  else .failed

/-- The `SystemComponent._update_status` method: recompute `status`
from the current `health` and `failure_threshold`. -/
def SystemComponent.update_status (c : SystemComponent) : SystemComponent :=
  { c with status := statusOf c.health c.failure_threshold }

/-- The `SystemComponent.update_health` method:
`health = max(0, health - degradation_rate * delta_sols)`, then
recompute status. -/
def SystemComponent.update_health (delta_sols : ℚ) (c : SystemComponent) :
    SystemComponent :=
  SystemComponent.update_status
    { c with health := max 0 (c.health - c.degradation_rate * delta_sols) }

/-- The `SystemComponent.perform_maintenance` method: `+30` health when
the stored status is failed, else `+50`, clamped to 100; records
`last_maintenance`; recomputes status; returns `True`. -/
def SystemComponent.perform_maintenance (current_sol : ℚ) (c : SystemComponent) :
    SystemComponent × Bool :=
  let c1 := if c.status = SystemStatus.failed
    then { c with health := min 100 (c.health + 30) }
    else { c with health := min 100 (c.health + 50) }
  (SystemComponent.update_status { c1 with last_maintenance := current_sol }, true)

/-- The `SystemComponent.apply_damage` method:
`health = max(0, health - damage)`, then recompute status. -/
def SystemComponent.apply_damage (damage : ℚ) (c : SystemComponent) :
    SystemComponent :=
  SystemComponent.update_status { c with health := max 0 (c.health - damage) }

/-- The per-component body of `MaintenanceAndRepairs.emergency_repair`:
`health = min(100, health + 70)`, record `last_maintenance`, recompute
status. -/
def SystemComponent.emergency_repair (current_sol : ℚ) (c : SystemComponent) :
    SystemComponent :=
  SystemComponent.update_status
    { c with health := min 100 (c.health + 70), last_maintenance := current_sol }

/-- The mutable state of `MaintenanceAndRepairs` reached by the claims:
`systems` is the insertion-ordered component dictionary as an
association list, plus the maintenance queue and the aging watermark
(the lock, the anomaly list and `maintenance_in_progress` play no role
in the embedded operations). -/
structure MaintenanceAndRepairs where
  systems : List (String × SystemComponent)
  maintenance_queue : List String := []
  last_update_sol : ℚ := 0

namespace MaintenanceAndRepairs

/-- The `MaintenanceAndRepairs.update` method: if the delta since the
watermark is positive, age every component by it and advance the
watermark; otherwise do nothing. -/
def update (current_sol : ℚ) (m : MaintenanceAndRepairs) : MaintenanceAndRepairs :=
  let delta_sols := current_sol - m.last_update_sol
  if delta_sols > 0 then
    { m with
      systems := m.systems.map (fun kv => (kv.1, kv.2.update_health delta_sols)),
      last_update_sol := current_sol }
  else m

/-- The queue-updating pass of `MaintenanceAndRepairs.preventive_monitoring`:
append every key whose component health is below 70 and which is not
already queued (the returned status report is a pure read and is not
modelled). -/
def preventive_monitoring (m : MaintenanceAndRepairs) : MaintenanceAndRepairs :=
  { m with
    maintenance_queue :=
      m.systems.foldl
        (fun q kv => if kv.2.health < 70 ∧ kv.1 ∉ q then q ++ [kv.1] else q)
        m.maintenance_queue }

/-- The `MaintenanceAndRepairs._calculate_overall_health` method:
weighted average with weight 2 for critical components, 1 otherwise. -/
def calculate_overall_health (m : MaintenanceAndRepairs) : ℚ :=
  if m.systems = [] then 0
  else
    let total_weight :=
      m.systems.foldl (fun acc kv => acc + (if kv.2.critical then (2:ℚ) else 1)) 0
    let weighted_health :=
      m.systems.foldl
        (fun acc kv => acc + kv.2.health * (if kv.2.critical then (2:ℚ) else 1)) 0
    if total_weight > 0 then weighted_health / total_weight else 0

/-- Dictionary access `self.systems[k]`; in the embedded calls `k` is
always a key of `systems`, so the default is never reached. -/
def getSys (m : MaintenanceAndRepairs) (k : String) : SystemComponent :=
  (m.systems.lookup k).getD default

/-- The sort key of `MaintenanceAndRepairs.plan_maintenance`:
`(not critical, health)`. -/
def sort_key (m : MaintenanceAndRepairs) (k : String) : Bool × ℚ :=
  (!(m.getSys k).critical, (m.getSys k).health)

end MaintenanceAndRepairs

/-- Lexicographic order on Python pairs `(bool, float)` with
`False < True`, as used by `sorted` on the plan keys. -/
def key_le (p q : Bool × ℚ) : Bool :=
  (!p.1 && q.1) || (p.1 == q.1 && decide (p.2 ≤ q.2))

/-- The key comparison of `plan_maintenance` on queue entries. -/
def MaintenanceAndRepairs.mq_le (m : MaintenanceAndRepairs) (k1 k2 : String) : Prop :=
  key_le (m.sort_key k1) (m.sort_key k2) = true

instance (m : MaintenanceAndRepairs) : DecidableRel m.mq_le :=
  fun _ _ => instDecidableEqBool _ _

/-- The `MaintenanceAndRepairs.plan_maintenance` method: `None` on an
empty queue, otherwise the head of the queue stably sorted by
`(not critical, health)`.  It only reads the state (the queue is not
mutated); Python `sorted` is a stable sort, embedded as Mathlib
insertion sort, which is stable for the same total preorder. -/
def MaintenanceAndRepairs.plan_maintenance (m : MaintenanceAndRepairs) : Option String :=
  if m.maintenance_queue = [] then none
  else (List.insertionSort m.mq_le m.maintenance_queue).head?

/-- The `MaintenanceAndRepairs.perform_maintenance` method: `False`
without mutation on an unknown key; otherwise delegate to the component
and drop the key from the maintenance queue. -/
def MaintenanceAndRepairs.perform_maintenance (system_key : String) (current_sol : ℚ)
    (m : MaintenanceAndRepairs) : MaintenanceAndRepairs × Bool :=
  match m.systems.lookup system_key with
  | none => (m, false)
  | some c =>
    let r := c.perform_maintenance current_sol
    ({ m with
       systems := m.systems.map
         (fun kv => if kv.1 = system_key then (kv.1, r.1) else kv),
       maintenance_queue := m.maintenance_queue.erase system_key }, r.2)

/-- The `MaintenanceAndRepairs.emergency_repair` method: `False` on an
unknown key; otherwise restore `+70`, record the repair time, recompute
status and drop the key from the maintenance queue. -/
def MaintenanceAndRepairs.emergency_repair (system_key : String) (current_sol : ℚ)
    (m : MaintenanceAndRepairs) : MaintenanceAndRepairs × Bool :=
  match m.systems.lookup system_key with
  | none => (m, false)
  | some c =>
    let c1 := c.emergency_repair current_sol
    ({ m with
       systems := m.systems.map
         (fun kv => if kv.1 = system_key then (kv.1, c1) else kv),
       maintenance_queue := m.maintenance_queue.erase system_key }, true)

/-- One mutating call on a `SystemComponent`, for reasoning about
arbitrary call sequences. -/
inductive MaintOp where
  | age (delta_sols : ℚ)
  | damage (amount : ℚ)
  | maintain (sol : ℚ)
  | emergency (sol : ℚ)

/-- Run one mutating call on a component. -/
def applyOp (c : SystemComponent) : MaintOp → SystemComponent
  | .age d => c.update_health d
  | .damage a => c.apply_damage a
  | .maintain s => (c.perform_maintenance s).1
  | .emergency s => c.emergency_repair s

/-- Run a sequence of mutating calls on a component. -/
def applyOps (c : SystemComponent) (ops : List MaintOp) : SystemComponent :=
  ops.foldl applyOp c

/-- An operation with a nonnegative aging delta or damage amount
(repairs are unconstrained). -/
def MaintOp.nonneg : MaintOp → Prop
  | .age d => 0 ≤ d
  | .damage a => 0 ≤ a
  | .maintain _ => True
  | .emergency _ => True

instance (op : MaintOp) : Decidable op.nonneg := by
  cases op <;> simp only [MaintOp.nonneg] <;> infer_instance

/-- A fresh event, as built by one of the generators. -/
def sampleEvent : SimulationEvent :=
  { event_type := .public_complaint
    severity := .low
    timestamp := 0
    description := "Public complaint about noise"
    affected_systems := ["noise"]
    consequences := [("satisfaction_impact", .num (-2))] }

/-- A component at full health with the dataclass defaults. -/
def comp100 : SystemComponent := { name := "Component" }

/-- The single critical component of the end-to-end scenario: health
100, degradation rate 10 per tick, failure threshold 30. -/
def c3_comp : SystemComponent :=
  { name := "Critical Component", health := 100, degradation_rate := 10,
    failure_threshold := 30, critical := true }

/-- A scheduler owning exactly the end-to-end scenario component. -/
def c3_m0 : MaintenanceAndRepairs := { systems := [("comp", c3_comp)] }

/-- A scheduler whose queue holds A (critical, health 60) and B
(non-critical, health 10). -/
def c6_m : MaintenanceAndRepairs :=
  { systems := [("A", { name := "A", health := 60, critical := true }),
                ("B", { name := "B", health := 10, critical := false })],
    maintenance_queue := ["A", "B"] }

/-- A critical component at health 0. -/
def c7_critical_comp : SystemComponent :=
  { name := "Life Support System", health := 0, critical := true }

/-- A non-critical component at health 100. -/
def c7_normal_comp : SystemComponent :=
  { name := "Communications Array", health := 100, critical := false }

/-- A scheduler owning two well-worn components, for the aging
witness. -/
def c9_m : MaintenanceAndRepairs :=
  { systems := [("life_support", { name := "Life Support System",
                                   degradation_rate := 1/20, critical := true }),
                ("communications", { name := "Communications Array",
                                     degradation_rate := 1/25 })] }

/-- A draw record on which every event kind fires, with all choice
indices 0 and a deficit of 10. -/
def allFireDraws : Draws :=
  { fire_infrastructure := true, infra_component := 0, infra_severity := 0,
    fire_complaint := true, complaint_topic := 0,
    fire_emergency := true, emergency_kind := 0, emergency_severity := 0,
    fire_environmental := true, environmental_kind := 0,
    fire_budget := true, budget_deficit := 10,
    fire_civic := true, civic_kind := 0, fire_policy := true }

/-- C1: refuted as stated. Resolving an already resolved event is not a
no-op: a second `resolve_event` call at a later clock reading (here day
1, after an original resolution at day 0) changes the event, because
`resolution_time` is overwritten with the current clock reading. -/
theorem c1_resolve_event_counterexample :
    SimulationEngine.resolve_event 1 (SimulationEngine.resolve_event 0 sampleEvent) ≠
      SimulationEngine.resolve_event 0 sampleEvent := by
  intro h
  have h2 := congrArg SimulationEvent.resolution_time h
  simp [SimulationEngine.resolve_event] at h2

/-- C1 (amended): a second `resolve_event` call leaves `resolved` true
and every other field unchanged, except that it overwrites
`resolution_time` with the clock reading of the second call; in
particular it is a no-op exactly when the clock reading has not
advanced. -/
theorem c1_resolve_event_overwrites_resolution_time (e : SimulationEvent) (t t' : ℚ) :
    SimulationEngine.resolve_event t' (SimulationEngine.resolve_event t e) =
      { SimulationEngine.resolve_event t e with resolution_time := some t' } ∧
    SimulationEngine.resolve_event t (SimulationEngine.resolve_event t e) =
      SimulationEngine.resolve_event t e :=
  ⟨rfl, rfl⟩

/-- C2: refuted as stated. The state object written by `save_state` has
top-level keys `current_day`, `events` and `time_scale` only; it
contains no `timestamp` field. -/
theorem c2_save_state_counterexample :
    (SimulationEngine.save_state 0 [] 1).map Prod.fst =
      ["current_day", "events", "time_scale"] ∧
    "timestamp" ∉ (SimulationEngine.save_state 0 [] 1).map Prod.fst := by
  constructor
  · rfl
  · show "timestamp" ∉ ["current_day", "events", "time_scale"]
    decide

/-- C2 (amended): for every engine state, `save_state` writes a JSON
object whose top-level fields are exactly the current day, the
serialized event list and the clock scale — there is no separate
timestamp field. -/
theorem c2_save_state_fields (now : ℚ) (events : List SimulationEvent) (scale : ℚ) :
    (SimulationEngine.save_state now events scale).map Prod.fst =
      ["current_day", "events", "time_scale"] ∧
    "timestamp" ∉ (SimulationEngine.save_state now events scale).map Prod.fst := by
  constructor
  · rfl
  · show "timestamp" ∉ ["current_day", "events", "time_scale"]
    decide

/-- C3: confirmed. On a scheduler owning one critical component with
health 100, degradation rate 10 per tick and failure threshold 30:
`update(3)` yields health 70 and status good; `update(8)` yields health
20 and status failed (20 is below the threshold 30); then
`perform_maintenance` returns `True` and yields health 50 (failed
branch adds 30) and status degraded. -/
theorem c3_end_to_end_trace :
    ((c3_m0.update 3).getSys "comp").health = 70 ∧
    ((c3_m0.update 3).getSys "comp").status = SystemStatus.good ∧
    (((c3_m0.update 3).update 8).getSys "comp").health = 20 ∧
    (((c3_m0.update 3).update 8).getSys "comp").status = SystemStatus.failed ∧
    (((c3_m0.update 3).update 8).perform_maintenance "comp" 8).2 = true ∧
    ((((c3_m0.update 3).update 8).perform_maintenance "comp" 8).1.getSys "comp").health = 50 ∧
    ((((c3_m0.update 3).update 8).perform_maintenance "comp" 8).1.getSys "comp").status =
      SystemStatus.degraded := by
  norm_num [MaintenanceAndRepairs.update, MaintenanceAndRepairs.getSys,
    MaintenanceAndRepairs.perform_maintenance, SystemComponent.perform_maintenance,
    SystemComponent.update_health, SystemComponent.update_status, statusOf,
    c3_m0, c3_comp, List.lookup]

/-- C4: confirmed. After each of the four mutating operations
(`update_health`, `apply_damage`, `perform_maintenance`,
`emergency_repair`) the stored status equals the fixed pure threshold
function of the new health and the failure threshold. -/
theorem c4_status_health_consistency (c : SystemComponent) (d a s s' : ℚ) :
    (c.update_health d).status =
      statusOf (c.update_health d).health (c.update_health d).failure_threshold ∧
    (c.apply_damage a).status =
      statusOf (c.apply_damage a).health (c.apply_damage a).failure_threshold ∧
    ((c.perform_maintenance s).1).status =
      statusOf ((c.perform_maintenance s).1).health
        ((c.perform_maintenance s).1).failure_threshold ∧
    (c.emergency_repair s').status =
      statusOf (c.emergency_repair s').health (c.emergency_repair s').failure_threshold :=
  ⟨rfl, rfl, rfl, rfl⟩

/-- C7: confirmed. For a system map with exactly one critical component
at health 0 and one non-critical component at health 100, the overall
health equals the weighted average 100/3 = 33.33..., not the unweighted
average 50; on an empty system map it is 0. -/
theorem c7_overall_health_weighted (c1 c2 : SystemComponent) (k1 k2 : String)
    (h1c : c1.critical = true) (h1h : c1.health = 0)
    (h2c : c2.critical = false) (h2h : c2.health = 100) :
    MaintenanceAndRepairs.calculate_overall_health { systems := [(k1, c1), (k2, c2)] } =
      100 / 3 ∧
    MaintenanceAndRepairs.calculate_overall_health { systems := [(k1, c1), (k2, c2)] } ≠ 50 ∧
    MaintenanceAndRepairs.calculate_overall_health { systems := [] } = 0 := by
  have hmain :
      MaintenanceAndRepairs.calculate_overall_health { systems := [(k1, c1), (k2, c2)] } =
        100 / 3 := by
    simp [MaintenanceAndRepairs.calculate_overall_health, h1c, h1h, h2c, h2h]
    norm_num
  refine ⟨hmain, ?_, rfl⟩
  rw [hmain]
  norm_num

/-- C7 witness: the aggregate weighting instance at a concrete
component pair. -/
theorem c7_overall_health_weighted_witness :
    MaintenanceAndRepairs.calculate_overall_health
        { systems := [("crit", c7_critical_comp), ("norm", c7_normal_comp)] } = 100 / 3 ∧
    MaintenanceAndRepairs.calculate_overall_health
        { systems := [("crit", c7_critical_comp), ("norm", c7_normal_comp)] } ≠ 50 ∧
    MaintenanceAndRepairs.calculate_overall_health { systems := [] } = 0 :=
  c7_overall_health_weighted c7_critical_comp c7_normal_comp "crit" "norm" rfl rfl rfl rfl

/-- C8: refuted as stated. The clock constructor stores its scale
argument unclamped: a clock constructed with scale 1000 stores 1000,
outside [0.1, 100]. -/
theorem c8_scale_clamp_counterexample :
    (SimulationClock.init 1000 24).time_scale = 1000 ∧
    ¬ (SimulationClock.init 1000 24).time_scale ≤ 100 := by
  constructor
  · rfl
  · show ¬ (1000 : ℚ) ≤ 100
    norm_num

/-- C8 (amended): every `set_time_scale` call clamps into [0.1, 100]
(so after any sequence of such calls the stored scale is in range, with
`set_time_scale(1000)` giving 100 and `set_time_scale(0.0001)` giving
0.1, out-of-range values silently clamped), but the constructor stores
its argument unclamped. -/
theorem c8_set_time_scale_clamps (c : SimulationClock) (s ts dh : ℚ) :
    1 / 10 ≤ (c.set_time_scale s).time_scale ∧
    (c.set_time_scale s).time_scale ≤ 100 ∧
    (c.set_time_scale 1000).time_scale = 100 ∧
    (c.set_time_scale (1 / 10000)).time_scale = 1 / 10 ∧
    (SimulationClock.init ts dh).time_scale = ts := by
  refine ⟨le_max_left _ _, max_le (by norm_num) (min_le_right _ _), ?_, ?_, rfl⟩
  · show max (1/10) (min 1000 100) = (100 : ℚ)
    norm_num
  · show max (1/10) (min (1/10000) 100) = (1/10 : ℚ)
    rw [min_eq_left (by norm_num), max_eq_left (by norm_num)]

/-- Each mutating operation leaves the degradation rate unchanged. -/
theorem applyOp_degradation_rate (c : SystemComponent) (op : MaintOp) :
    (applyOp c op).degradation_rate = c.degradation_rate := by
  cases op with
  | age d => rfl
  | damage a => rfl
  | maintain s =>
    show ((c.perform_maintenance s).1).degradation_rate = c.degradation_rate
    simp only [SystemComponent.perform_maintenance]
    split <;> rfl
  | emergency s =>
    rfl

/-- One mutating operation with nonnegative delta and amount keeps the
health of a component with nonnegative degradation rate inside
[0, 100]. -/
theorem applyOp_health_mem (c : SystemComponent) (op : MaintOp)
    (h0 : 0 ≤ c.health) (h1 : c.health ≤ 100) (hr : 0 ≤ c.degradation_rate)
    (hop : op.nonneg) :
    0 ≤ (applyOp c op).health ∧ (applyOp c op).health ≤ 100 := by
  cases op with
  | age d =>
    have hd : 0 ≤ d := hop
    show 0 ≤ max 0 (c.health - c.degradation_rate * d) ∧
      max 0 (c.health - c.degradation_rate * d) ≤ 100
    constructor
    · exact le_max_left _ _
    · exact max_le (by norm_num) (by nlinarith [mul_nonneg hr hd])
  | damage a =>
    have ha : 0 ≤ a := hop
    show 0 ≤ max 0 (c.health - a) ∧ max 0 (c.health - a) ≤ 100
    exact ⟨le_max_left _ _, max_le (by norm_num) (by linarith)⟩
  | maintain s =>
    show 0 ≤ ((c.perform_maintenance s).1).health ∧
      ((c.perform_maintenance s).1).health ≤ 100
    simp only [SystemComponent.perform_maintenance]
    split
    · exact ⟨le_min (by norm_num) (by linarith), min_le_left _ _⟩
    · exact ⟨le_min (by norm_num) (by linarith), min_le_left _ _⟩
  | emergency s =>
    show 0 ≤ min 100 (c.health + 70) ∧ min 100 (c.health + 70) ≤ 100
    exact ⟨le_min (by norm_num) (by linarith), min_le_left _ _⟩

/-- C5: refuted as stated. Health is not kept inside [0, 100] for
arbitrary damage amounts: `apply_damage(-1)` on a component at full
health (a length-one call sequence from a start inside [0, 100]) leaves
health 101, because `max(0, health - damage)` has no upper clamp. -/
theorem c5_health_clamp_counterexample :
    0 ≤ comp100.health ∧ comp100.health ≤ 100 ∧
    (applyOps comp100 [MaintOp.damage (-1)]).health = 101 ∧
    ¬ (applyOps comp100 [MaintOp.damage (-1)]).health ≤ 100 := by
  norm_num [applyOps, applyOp, SystemComponent.apply_damage,
    SystemComponent.update_status, comp100]

/-- C5 (amended): for every component with nonnegative degradation rate
starting with health in [0, 100], and every sequence of `update_health`
calls with nonnegative delta, `apply_damage` calls with nonnegative
amount, `perform_maintenance` and `emergency_repair` calls, the
resulting health lies in [0, 100]. -/
theorem c5_health_clamped (c : SystemComponent) (ops : List MaintOp)
    (h0 : 0 ≤ c.health) (h1 : c.health ≤ 100) (hr : 0 ≤ c.degradation_rate)
    (hops : ∀ op ∈ ops, op.nonneg) :
    0 ≤ (applyOps c ops).health ∧ (applyOps c ops).health ≤ 100 := by
  induction ops generalizing c with
  | nil => exact ⟨h0, h1⟩
  | cons op rest ih =>
    have hstep := applyOp_health_mem c op h0 h1 hr (hops op (by simp))
    have hrate : 0 ≤ (applyOp c op).degradation_rate := by
      rw [applyOp_degradation_rate]; exact hr
    exact ih (applyOp c op) hstep.1 hstep.2 hrate (fun o ho => hops o (by simp [ho]))

/-- C5 witness: the clamp at a concrete component and call sequence
(aging by 200 ticks, 50 damage, one maintenance). -/
theorem c5_health_clamped_witness :
    0 ≤ (applyOps comp100 [MaintOp.age 200, MaintOp.damage 50, MaintOp.maintain 5]).health ∧
    (applyOps comp100 [MaintOp.age 200, MaintOp.damage 50, MaintOp.maintain 5]).health ≤ 100 :=
  c5_health_clamped comp100 [MaintOp.age 200, MaintOp.damage 50, MaintOp.maintain 5]
    (by norm_num [comp100]) (by norm_num [comp100]) (by norm_num [comp100])
    (by
      intro op hop
      simp only [List.mem_cons, List.not_mem_nil, or_false] at hop
      rcases hop with rfl | rfl | rfl <;> norm_num [MaintOp.nonneg])

/-- The aging watermark after `update(t)` is at least `t`. -/
theorem update_last_update_sol (m : MaintenanceAndRepairs) (t : ℚ) :
    t ≤ (m.update t).last_update_sol := by
  simp only [MaintenanceAndRepairs.update]
  split_ifs with h
  · exact le_refl t
  · push_neg at h
    linarith

/-- C9: confirmed. After `update(t)`, a second `update(t')` with
`t' ≤ t` changes nothing (neither component healths nor the watermark);
a call with `t'` strictly above the watermark ages every component by
the elapsed delta and advances the watermark to `t'`. -/
theorem c9_update_idempotent (m : MaintenanceAndRepairs) (t t' : ℚ) :
    (t' ≤ t → (m.update t).update t' = m.update t) ∧
    (t' > (m.update t).last_update_sol →
      ((m.update t).update t').last_update_sol = t' ∧
      ((m.update t).update t').systems =
        (m.update t).systems.map
          (fun kv => (kv.1, kv.2.update_health (t' - (m.update t).last_update_sol)))) := by
  constructor
  · intro hle
    have hw := update_last_update_sol m t
    generalize hm1 : m.update t = m1 at hw ⊢
    simp only [MaintenanceAndRepairs.update]
    rw [if_neg (by linarith)]
  · intro hgt
    generalize hm1 : m.update t = m1 at hgt ⊢
    simp only [MaintenanceAndRepairs.update]
    rw [if_pos (by linarith)]
    exact ⟨rfl, rfl⟩

/-- C9 witness: a duplicate late call at tick 2 after an update at tick
3 is a no-op on a concrete scheduler. -/
theorem c9_update_idempotent_witness :
    (c9_m.update 3).update 2 = c9_m.update 3 :=
  (c9_update_idempotent c9_m 3 2).1 (by norm_num)

/-- The lexicographic key order is reflexive. -/
theorem key_le_refl (p : Bool × ℚ) : key_le p p = true := by
  simp [key_le]

/-- The lexicographic key order is total. -/
theorem key_le_total (p q : Bool × ℚ) : key_le p q = true ∨ key_le q p = true := by
  rcases p with ⟨b1, x⟩
  rcases q with ⟨b2, y⟩
  rcases le_total x y with h | h <;> cases b1 <;> cases b2 <;> simp [key_le, h]

/-- The lexicographic key order is transitive. -/
theorem key_le_trans (p q r : Bool × ℚ) (h1 : key_le p q = true) (h2 : key_le q r = true) :
    key_le p r = true := by
  rcases p with ⟨b1, x⟩
  rcases q with ⟨b2, y⟩
  rcases r with ⟨b3, z⟩
  cases b1 <;> cases b2 <;> cases b3 <;> simp_all [key_le] <;> linarith

/-- The enqueue fold of the monitoring pass preserves queue
distinctness: a key is only appended when it is not yet queued. -/
theorem monitoring_foldl_nodup (systems : List (String × SystemComponent))
    (q : List String) (h : q.Nodup) :
    (systems.foldl
      (fun q kv => if kv.2.health < 70 ∧ kv.1 ∉ q then q ++ [kv.1] else q) q).Nodup := by
  induction systems generalizing q with
  | nil => exact h
  | cons kv rest ih =>
    simp only [List.foldl_cons]
    apply ih
    split_ifs with hc
    · refine List.nodup_append.2 ⟨h, List.nodup_singleton _, fun a ha hb => ?_⟩
      rw [List.mem_singleton] at hb
      exact hc.2 (hb ▸ ha)
    · exact h

/-- C6: confirmed. The monitoring pass never adds a key already in the
maintenance queue (distinctness is preserved); `plan_maintenance`
returns none exactly on an empty queue, and otherwise some queued key
minimal under the `(not critical, health ascending)` ordering, reading
but not mutating the queue (it is embedded as a pure read); on a queue
holding A (critical, health 60) and B (non-critical, health 10) it
returns A. -/
theorem c6_queue_dedup_and_priority (m : MaintenanceAndRepairs)
    (hnd : m.maintenance_queue.Nodup) :
    m.preventive_monitoring.maintenance_queue.Nodup ∧
    (m.plan_maintenance = none ↔ m.maintenance_queue = []) ∧
    (∀ k, m.plan_maintenance = some k →
      k ∈ m.maintenance_queue ∧ ∀ k' ∈ m.maintenance_queue, m.mq_le k k') ∧
    c6_m.plan_maintenance = some "A" := by
  haveI htot : IsTotal String m.mq_le := ⟨fun _ _ => key_le_total _ _⟩
  haveI htrans : IsTrans String m.mq_le := ⟨fun _ _ _ => key_le_trans _ _ _⟩
  refine ⟨monitoring_foldl_nodup _ _ hnd, ?_, ?_, ?_⟩
  · constructor
    · intro hn
      by_contra hne
      unfold MaintenanceAndRepairs.plan_maintenance at hn
      rw [if_neg hne] at hn
      cases hs : List.insertionSort m.mq_le m.maintenance_queue with
      | nil =>
        have hperm := List.perm_insertionSort m.mq_le m.maintenance_queue
        rw [hs] at hperm
        exact hne hperm.symm.eq_nil
      | cons a t =>
        rw [hs] at hn
        simp at hn
    · intro he
      unfold MaintenanceAndRepairs.plan_maintenance
      rw [if_pos he]
  · intro k hk
    unfold MaintenanceAndRepairs.plan_maintenance at hk
    by_cases he : m.maintenance_queue = []
    · rw [if_pos he] at hk
      simp at hk
    · rw [if_neg he] at hk
      have hperm := List.perm_insertionSort m.mq_le m.maintenance_queue
      have hsorted := List.sorted_insertionSort m.mq_le m.maintenance_queue
      cases hs : List.insertionSort m.mq_le m.maintenance_queue with
      | nil =>
        rw [hs] at hk
        simp at hk
      | cons a t =>
        rw [hs] at hk hperm hsorted
        simp only [List.head?_cons, Option.some.injEq] at hk
        subst hk
        constructor
        · exact hperm.mem_iff.mp (by simp)
        · intro k' hk'
          rcases List.mem_cons.mp (hperm.mem_iff.mpr hk') with rfl | h
          · exact key_le_refl _
          · exact List.rel_of_sorted_cons hsorted k' h
  · have hle : c6_m.mq_le "A" "B" := by decide
    simp only [MaintenanceAndRepairs.plan_maintenance]
    rw [if_neg (by decide : ¬ (c6_m.maintenance_queue = []))]
    show (List.insertionSort c6_m.mq_le ["A", "B"]).head? = some "A"
    simp only [List.insertionSort, List.orderedInsert_nil]
    simp only [List.orderedInsert]
    rw [if_pos hle]
    rfl

/-- C6 witness: the queue properties at the concrete scheduler whose
queue holds A (critical, health 60) and B (non-critical, health 10). -/
theorem c6_queue_dedup_and_priority_witness :
    c6_m.preventive_monitoring.maintenance_queue.Nodup ∧
    (c6_m.plan_maintenance = none ↔ c6_m.maintenance_queue = []) ∧
    (∀ k, c6_m.plan_maintenance = some k →
      k ∈ c6_m.maintenance_queue ∧ ∀ k' ∈ c6_m.maintenance_queue, c6_m.mq_le k k') ∧
    c6_m.plan_maintenance = some "A" :=
  c6_queue_dedup_and_priority c6_m (by decide)

/-- A modelled `random.choice` always returns an element of its
list. -/
theorem random_choice_mem (dflt : α) (l : List α) (i : Nat) (h : l ≠ []) :
    random_choice dflt l i ∈ l := by
  have hlen : i % l.length < l.length := Nat.mod_lt _ (List.length_pos.mpr h)
  show l.getD (i % l.length) dflt ∈ l
  rw [List.getD_eq_getElem l dflt hlen]
  exact List.getElem_mem _

/-- An infrastructure failure is drawn from `{low, medium, high}`. -/
theorem infra_severity_ne (day : ℚ) (d : Draws) :
    (EventGenerator.generate_infrastructure_failure day d).severity ≠
      EventSeverity.critical := by
  show random_choice EventSeverity.low
    [EventSeverity.low, EventSeverity.medium, EventSeverity.high] d.infra_severity ≠ _
  have hm := random_choice_mem EventSeverity.low
    [EventSeverity.low, EventSeverity.medium, EventSeverity.high] d.infra_severity (by simp)
  intro hc
  rw [hc] at hm
  simp at hm

/-- An emergency call is drawn from `{medium, high}`. -/
theorem emergency_severity_ne (day : ℚ) (d : Draws) :
    (EventGenerator.generate_emergency_call day d).severity ≠
      EventSeverity.critical := by
  show random_choice EventSeverity.medium
    [EventSeverity.medium, EventSeverity.high] d.emergency_severity ≠ _
  have hm := random_choice_mem EventSeverity.medium
    [EventSeverity.medium, EventSeverity.high] d.emergency_severity (by simp)
  intro hc
  rw [hc] at hm
  simp at hm

/-- A guarded singleton list satisfies `all p` when its element
does. -/
theorem all_ite_singleton (b : Bool) (e : SimulationEvent) (p : SimulationEvent → Bool)
    (h : p e = true) : (if b then [e] else ([] : List SimulationEvent)).all p = true := by
  cases b
  · rfl
  · simp [h]

/-- C10: confirmed. Every event the municipal `check_for_events` pass
can produce, for any clock values and any random draws, has severity
low, medium or high — no branch produces a critical-severity event
(the generators that can draw critical, such as the solar storm one,
are not reachable from `check_for_events`). -/
theorem c10_no_critical_severity (current_day last_check_day : ℚ) (d : Draws) :
    ((EventGenerator.check_for_events current_day last_check_day d).1.all
      (fun e => !(e.severity == EventSeverity.critical))) = true := by
  unfold EventGenerator.check_for_events
  split
  · rfl
  · simp only [List.all_append, Bool.and_eq_true]
    have h1 : (!((EventGenerator.generate_infrastructure_failure current_day d).severity ==
        EventSeverity.critical)) = true := by
      rw [Bool.not_eq_true', beq_eq_false_iff_ne]
      exact infra_severity_ne current_day d
    have h3 : (!((EventGenerator.generate_emergency_call current_day d).severity ==
        EventSeverity.critical)) = true := by
      rw [Bool.not_eq_true', beq_eq_false_iff_ne]
      exact emergency_severity_ne current_day d
    exact ⟨⟨⟨⟨⟨⟨all_ite_singleton _ _ _ h1, all_ite_singleton _ _ _ rfl⟩,
      all_ite_singleton _ _ _ h3⟩, all_ite_singleton _ _ _ rfl⟩,
      all_ite_singleton _ _ _ rfl⟩, all_ite_singleton _ _ _ rfl⟩,
      all_ite_singleton _ _ _ rfl⟩
